import Mathlib

/-!
Shallow embedding of the client-side orchestration logic of the
Virtual-Assistant front end (`frontend/src/components/VoiceAssistant.jsx`).

JavaScript values that may be `undefined` are modelled as `Option`;
the JavaScript `||` operator on strings (where both `undefined` and the
empty string are falsy) is modelled by `jsOrS`; object-property lookup on
the translation tables is modelled by association-list lookup `lookupKV`.
React `setX` state updates are modelled as field updates on an explicit
state record, and the awaited outcome of a `fetch` round trip is passed
in as a `FetchOutcome` parameter (success with parsed body, or failure,
which covers both network errors and non-success HTTP statuses since the
code turns the latter into a thrown error).
-/

namespace VoiceAssistant

/-- JavaScript `a || b` where `a` is a possibly-undefined string:
`undefined` and `""` are falsy, so `b` is returned for those. -/
def jsOrS : Option String → String → String
  | some s, b => if s = "" then b else s
  | none, b => b

/-- JavaScript truthiness of a possibly-undefined string. -/
def truthyS : Option String → Bool
  | some s => s ≠ ""
  | none => false

/-- Leading-whitespace removal on a character list. -/
def dropLeadingWs : List Char → List Char
  | [] => []
  | c :: cs => if c.isWhitespace then dropLeadingWs cs else c :: cs

/-- JavaScript `String.prototype.trim`: strip whitespace from both ends. -/
def jsTrim (s : String) : String :=
  { data := List.reverse (dropLeadingWs (List.reverse (dropLeadingWs s.data))) }

/-- Object-property lookup, modelling `obj[key]` on a literal object:
returns the value of the first matching key, or `none` (undefined). -/
def lookupKV {α : Type} : List (String × α) → String → Option α
  | [], _ => none
  | (k, v) :: rest, key => if key = k then some v else lookupKV rest key

/-! ### The UI translation tables (`translations` object, lines 25-201) -/

def ptTable : List (String × String) := [
  ("title", "Meu Assistente de Voz"),
  ("placeholder", "Digite seu comando"),
  ("sendText", "Enviar comando"),
  ("speak", "Falar"),
  ("viewHistory", "Ver conversa completa"),
  ("feedbackTitle", "Enviar Feedback"),
  ("feedbackPlaceholder", "Digite seu feedback..."),
  ("ratingLabel", "Avaliação:"),
  ("sendFeedback", "Enviar Feedback"),
  ("recording", "🎙️ Gravando..."),
  ("speakBtn", "🎙️ Falar"),
  ("responseTitle", "Resposta do Assistente:"),
  ("uploading", "⏳ Enviando áudio..."),
  ("uploaded", "✅ Áudio enviado"),
  ("uploadError", "❌ Erro ao enviar áudio"),
  ("micNotSupported", "Seu navegador não suporta gravação de áudio."),
  ("recordingNotSupported", "Gravação não suportada neste navegador."),
  ("micAccessError", "Não foi possível acessar o microfone. Verifique permissões e dispositivo."),
  ("recognitionNotSupported", "Reconhecimento de voz não suportado neste navegador."),
  ("feedbackEmpty", "⚠️ Escreva uma mensagem antes de enviar."),
  ("feedbackSent", "Feedback enviado com sucesso!"),
  ("feedbackError", "⚠️ Não foi possível enviar o feedback."),
  ("assistantNotAvailable", "Sem resposta.")
]

def enTable : List (String × String) := [
  ("title", "My Voice Assistant"),
  ("placeholder", "Type your command"),
  ("sendText", "Send command"),
  ("speak", "Speak"),
  ("viewHistory", "View full conversation"),
  ("feedbackTitle", "Send Feedback"),
  ("feedbackPlaceholder", "Type your feedback..."),
  ("ratingLabel", "Rating:"),
  ("sendFeedback", "Send Feedback"),
  ("recording", "🎙️ Recording..."),
  ("speakBtn", "🎙️ Speak"),
  ("responseTitle", "Assistant Response:"),
  ("uploading", "⏳ Uploading audio..."),
  ("uploaded", "✅ Audio uploaded"),
  ("uploadError", "❌ Error uploading audio"),
  ("micNotSupported", "Your browser does not support audio recording."),
  ("recordingNotSupported", "Recording not supported in this browser."),
  ("micAccessError", "Could not access the microphone. Check permissions and device."),
  ("recognitionNotSupported", "Voice recognition not supported in this browser."),
  ("feedbackEmpty", "⚠️ Write a message before sending."),
  ("feedbackSent", "Feedback sent successfully!"),
  ("feedbackError", "⚠️ Could not send feedback."),
  ("assistantNotAvailable", "No response.")
]

def esTable : List (String × String) := [
  ("title", "Mi Asistente de Voz"),
  ("placeholder", "Escribe tu comando"),
  ("sendText", "Enviar comando"),
  ("speak", "Hablar"),
  ("viewHistory", "Ver conversación completa"),
  ("feedbackTitle", "Enviar Comentarios"),
  ("feedbackPlaceholder", "Escribe tus comentarios..."),
  ("ratingLabel", "Calificación:"),
  ("sendFeedback", "Enviar Comentarios"),
  ("recording", "🎙️ Grabando..."),
  ("speakBtn", "🎙️ Hablar"),
  ("responseTitle", "Respuesta del Asistente:"),
  ("uploading", "⏳ Enviando audio..."),
  ("uploaded", "✅ Audio enviado"),
  ("uploadError", "❌ Error al enviar audio"),
  ("micNotSupported", "Tu navegador no admite grabación de audio."),
  ("recordingNotSupported", "Grabación no compatible en este navegador."),
  ("micAccessError", "No se pudo acceder al micrófono. Verifica permisos y dispositivo."),
  ("recognitionNotSupported", "Reconocimiento de voz no compatible en este navegador."),
  ("feedbackEmpty", "⚠️ Escribe un mensaje antes de enviar."),
  ("feedbackSent", "Comentarios enviados con éxito!"),
  ("feedbackError", "⚠️ No se pudieron enviar los comentarios."),
  ("assistantNotAvailable", "Sin respuesta.")
]

def frTable : List (String × String) := [
  ("title", "Mon Assistant Vocal"),
  ("placeholder", "Tapez votre commande"),
  ("sendText", "Envoyer commande"),
  ("speak", "Parler"),
  ("viewHistory", "Voir la conversation complète"),
  ("feedbackTitle", "Envoyer un retour"),
  ("feedbackPlaceholder", "Tapez votre retour..."),
  ("ratingLabel", "Évaluation:"),
  ("sendFeedback", "Envoyer"),
  ("recording", "🎙️ Enregistrement..."),
  ("speakBtn", "🎙️ Parler"),
  ("responseTitle", "Réponse de l'assistant:"),
  ("uploading", "⏳ Envoi de l'audio..."),
  ("uploaded", "✅ Audio envoyé"),
  ("uploadError", "❌ Erreur lors de l'envoi de l'audio"),
  ("micNotSupported", "Votre navigateur ne prend pas en charge l'enregistrement audio."),
  ("recordingNotSupported", "Enregistrement non pris en charge dans ce navigateur."),
  ("micAccessError", "Impossible d'accéder au microphone. Vérifiez les autorisations et l'appareil."),
  ("recognitionNotSupported", "Reconnaissance vocale non prise en charge dans ce navigateur."),
  ("feedbackEmpty", "⚠️ Écrivez un message avant d'envoyer."),
  ("feedbackSent", "Retour envoyé avec succès!"),
  ("feedbackError", "⚠️ Impossible d'envoyer le retour."),
  ("assistantNotAvailable", "Pas de réponse.")
]

def deTable : List (String × String) := [
  ("title", "Mein Sprachassistent"),
  ("placeholder", "Geben Sie Ihren Befehl ein"),
  ("sendText", "Befehl senden"),
  ("speak", "Sprechen"),
  ("viewHistory", "Gespräch anzeigen"),
  ("feedbackTitle", "Feedback senden"),
  ("feedbackPlaceholder", "Geben Sie Ihr Feedback ein..."),
  ("ratingLabel", "Bewertung:"),
  ("sendFeedback", "Feedback senden"),
  ("recording", "🎙️ Aufnahme..."),
  ("speakBtn", "🎙️ Sprechen"),
  ("responseTitle", "Antwort des Assistenten:"),
  ("uploading", "⏳ Audio wird hochgeladen..."),
  ("uploaded", "✅ Audio hochgeladen"),
  ("uploadError", "❌ Fehler beim Hochladen des Audios"),
  ("micNotSupported", "Ihr Browser unterstützt keine Audioaufnahme."),
  ("recordingNotSupported", "Aufnahme in diesem Browser nicht unterstützt."),
  ("micAccessError", "Mikrofon konnte nicht zugegriffen werden. Überprüfen Sie Berechtigungen und Gerät."),
  ("recognitionNotSupported", "Spracherkennung in diesem Browser nicht unterstützt."),
  ("feedbackEmpty", "⚠️ Schreiben Sie eine Nachricht, bevor Sie senden."),
  ("feedbackSent", "Feedback erfolgreich gesendet!"),
  ("feedbackError", "⚠️ Feedback konnte nicht gesendet werden."),
  ("assistantNotAvailable", "Keine Antwort.")
]

def arTable : List (String × String) := [
  ("title", "مساعدي الصوتي"),
  ("placeholder", "اكتب أمرك"),
  ("sendText", "إرسال الأمر"),
  ("speak", "تحدث"),
  ("viewHistory", "عرض المحادثة كاملة"),
  ("feedbackTitle", "إرسال ملاحظات"),
  ("feedbackPlaceholder", "اكتب ملاحظاتك..."),
  ("ratingLabel", "التقييم:"),
  ("sendFeedback", "إرسال الملاحظات"),
  ("recording", "🎙️ جاري التسجيل..."),
  ("speakBtn", "🎙️ تحدث"),
  ("responseTitle", "رد المساعد:"),
  ("uploading", "⏳ جارٍ إرسال الصوت..."),
  ("uploaded", "✅ تم إرسال الصوت"),
  ("uploadError", "❌ خطأ في إرسال الصوت"),
  ("micNotSupported", "المتصفح لا يدعم تسجيل الصوت."),
  ("recordingNotSupported", "التسجيل غير مدعوم في هذا المتصفح."),
  ("micAccessError", "تعذر الوصول إلى الميكروفون. تحقق من الأذونات والجهاز."),
  ("recognitionNotSupported", "التعرف على الصوت غير مدعوم في هذا المتصفح."),
  ("feedbackEmpty", "⚠️ اكتب رسالة قبل الإرسال."),
  ("feedbackSent", "تم إرسال الملاحظات بنجاح!"),
  ("feedbackError", "⚠️ تعذر إرسال الملاحظات."),
  ("assistantNotAvailable", "لا توجد استجابة.")
]

def ruTable : List (String × String) := [
  ("title", "Мой голосовой помощник"),
  ("placeholder", "Введите команду"),
  ("sendText", "Отправить команду"),
  ("speak", "Говорить"),
  ("viewHistory", "Просмотреть всю беседу"),
  ("feedbackTitle", "Отправить отзыв"),
  ("feedbackPlaceholder", "Введите ваш отзыв..."),
  ("ratingLabel", "Оценка:"),
  ("sendFeedback", "Отправить отзыв"),
  ("recording", "🎙️ Запись..."),
  ("speakBtn", "🎙️ Говорить"),
  ("responseTitle", "Ответ помощника:"),
  ("uploading", "⏳ Отправка аудио..."),
  ("uploaded", "✅ Аудио отправлено"),
  ("uploadError", "❌ Ошибка при отправке аудио"),
  ("micNotSupported", "Ваш браузер не поддерживает запись аудио."),
  ("recordingNotSupported", "Запись не поддерживается в этом браузере."),
  ("micAccessError", "Не удалось получить доступ к микрофону. Проверьте разрешения и устройство."),
  ("recognitionNotSupported", "Распознавание голоса не поддерживается в этом браузере."),
  ("feedbackEmpty", "⚠️ Напишите сообщение перед отправкой."),
  ("feedbackSent", "Отзыв успешно отправлен!"),
  ("feedbackError", "⚠️ Не удалось отправить отзыв."),
  ("assistantNotAvailable", "Нет ответа.")
]

/-- The `translations` object: language code to UI-string table. -/
def translations : List (String × List (String × String)) :=
  [("pt", ptTable), ("en", enTable), ("es", esTable), ("fr", frTable),
   ("de", deTable), ("ar", arTable), ("ru", ruTable)]

/-- The localization resolver
`const t = (lang, key) => (translations[lang] && translations[lang][key]) || translations["en"][key] || key;`.
`&&` short-circuiting on a missing table and `[key]` on a present table are
together the `Option.bind`; the two `||` are `jsOrS`. Total: never throws. -/
def t (lang key : String) : String :=
  jsOrS ((lookupKV translations lang).bind (fun tb => lookupKV tb key))
    (jsOrS ((lookupKV translations "en").bind (fun tb => lookupKV tb key)) key)

/-- The resolver as the spec words it (for the refinement comparison):
look up `key` in the table for `language`; if absent, fall back to the
default (English) table; if still absent, return `key` itself. -/
def resolveSpec (lang key : String) : String :=
  match (lookupKV translations lang).bind (fun tb => lookupKV tb key) with
  | some v => v
  | none =>
    match (lookupKV translations "en").bind (fun tb => lookupKV tb key) with
    | some v => v
    | none => key

/-- The supported language codes. -/
def supportedLanguages : List String := translations.map Prod.fst

/-- The keys defined in the default (English) table. -/
def defaultTableKeys : List String := enTable.map Prod.fst

theorem lookupKV_mem {α : Type} (l : List (String × α)) (key : String) (v : α)
    (h : lookupKV l key = some v) : (key, v) ∈ l := by
  induction l with
  | nil => simp [lookupKV] at h
  | cons p rest ih =>
    obtain ⟨k, w⟩ := p
    by_cases hk : key = k
    · subst hk
      simp [lookupKV] at h
      subst h
      exact List.mem_cons_self _ _
    · simp only [lookupKV, if_neg hk] at h
      exact List.mem_cons_of_mem _ (ih h)

theorem translations_values_ne_empty :
    ∀ p ∈ translations, ∀ q ∈ p.2, q.2 ≠ "" := by decide

theorem table_value_ne_empty (lang key v : String) (tb : List (String × String))
    (h1 : lookupKV translations lang = some tb) (h2 : lookupKV tb key = some v) :
    v ≠ "" :=
  translations_values_ne_empty _ (lookupKV_mem _ _ _ h1) _ (lookupKV_mem _ _ _ h2)

theorem t_refines_resolveSpec (lang key : String) : t lang key = resolveSpec lang key := by
  unfold t resolveSpec
  cases hx : (lookupKV translations lang).bind (fun tb => lookupKV tb key) with
  | some v =>
    obtain ⟨tb, h1, h2⟩ := Option.bind_eq_some.mp hx
    have hv : v ≠ "" := table_value_ne_empty lang key v tb h1 h2
    simp [jsOrS, hv]
  | none =>
    cases hy : (lookupKV translations "en").bind (fun tb => lookupKV tb key) with
    | some w =>
      obtain ⟨tb, h1, h2⟩ := Option.bind_eq_some.mp hy
      have hw : w ≠ "" := table_value_ne_empty "en" key w tb h1 h2
      simp [jsOrS, hw]
    | none => simp [jsOrS]

/-- C4: the localization resolver returns the entry from the requested
language table when present, else the default (English) entry, else the key
itself (it is a total function, so it never throws), and for every supported
language and every key of the default table the result is non-empty. -/
theorem c4_localization_resolver_total_fallback :
    (∀ lang key, t lang key = resolveSpec lang key) ∧
    (∀ lang ∈ supportedLanguages, ∀ key ∈ defaultTableKeys, t lang key ≠ "") :=
  ⟨t_refines_resolveSpec, by decide⟩

/-- Concrete instantiation of C4 at a supported language and default-table key. -/
theorem c4_localization_resolver_total_fallback_witness :
    t "ar" "feedbackEmpty" = resolveSpec "ar" "feedbackEmpty" ∧ t "ar" "feedbackEmpty" ≠ "" :=
  ⟨c4_localization_resolver_total_fallback.1 "ar" "feedbackEmpty",
   c4_localization_resolver_total_fallback.2 "ar" (by decide) "feedbackEmpty" (by decide)⟩

/-! ### Conversation Log and Response Envelope data model -/

/-- One turn in the conversation log: `{role, text}` with role one of
`"user"`, `"assistant"`, `"error"` as produced by the component. -/
structure Exchange where
  role : String
  text : String
  deriving DecidableEq, Repr

/-- The generic connectivity message appended to the log on any failed
command or upload round trip (`"Erro de conexão com o servidor."`). -/
def connectionErrorText : String := "Erro de conexão com o servidor."

/-- An element of the `actions` array as the rendering code (lines 574-597)
distinguishes them: a JS array (e.g. an `Object.entries` pair), a plain
object with the properties the renderer probes, or any other value
(string, number, null), which the renderer skips. -/
inductive JsItem where
  | arr (elems : List String)
  | obj (label title name url href : Option String)
  | other
  deriving DecidableEq, Repr

/-- The shape of `data.actions` from the server: a JS array or a keyed
object (whose `Object.entries` order is the list order). -/
inductive ActionsField where
  | jsList (items : List JsItem)
  | mapping (entries : List (String × String))
  deriving DecidableEq, Repr

/-- `Array.isArray(data.actions) ? data.actions : Object.entries(data.actions || {})`:
a list is stored as-is, a keyed object becomes its `[key, value]` pairs. -/
def normalizeActions : ActionsField → List JsItem
  | .jsList l => l
  | .mapping m => m.map (fun p => JsItem.arr [p.1, p.2])

/-- The positional fallback label `Action ${i + 1}` used by the renderer. -/
def actionPlaceholder (i : Nat) : String := "Action " ++ toString (i + 1)

/-- How the renderer resolves one stored action item at index `i`:
an array of length ≥ 2 destructures to `[key, url]`; a shorter array
still passes the `typeof item === "object"` test but has none of the
probed properties, so it gets the placeholder label and `"#"`; an object
resolves `label || title || name || placeholder` and `url || href || "#"`;
anything else renders nothing. -/
def resolveItem (i : Nat) : JsItem → Option (String × String)
  | .arr elems =>
    if 2 ≤ elems.length then some (elems.getD 0 "", elems.getD 1 "")
    else some (actionPlaceholder i, "#")
  | .obj label title name url href =>
    some (jsOrS label (jsOrS title (jsOrS name (actionPlaceholder i))),
          jsOrS url (jsOrS href "#"))
  | .other => none

/-- `actions.map((item, i) => ...)` with `null` results dropped. -/
def resolveFrom : Nat → List JsItem → List (String × String)
  | _, [] => []
  | i, item :: rest =>
    match resolveItem i item with
    | some p => p :: resolveFrom (i + 1) rest
    | none => resolveFrom (i + 1) rest

/-- The (label, url) pairs the actions list renders, in order. -/
def renderedActions (l : List JsItem) : List (String × String) := resolveFrom 0 l

/-! ### Component state and the network boundary -/

/-- The React state of the `VoiceAssistant` component that the claims
concern, plus a counter of network calls issued (for no-network-call
claims). `recorder` is the `MediaRecorder` ref: `none` when no recorder
was created, otherwise its `state` string (`"recording"`/`"inactive"`...).
`chunks` is `audioChunksRef.current` with chunk payloads as opaque strings. -/
structure AsstState where
  command : String
  response : String
  audioUrl : String
  actions : List JsItem
  history : List Exchange
  uploadStatus : String
  listening : Bool
  chunks : List String
  recorder : Option String
  networkCalls : Nat
  deriving DecidableEq, Repr

/-- Awaited outcome of one `fetch` round trip: a parsed success body, or a
failure. A non-ok HTTP status is turned into a thrown error by the code
(`throw new Error(...)`) and lands in the same `catch` as a network error,
so both are one `failure` constructor; the diagnostic text it carries is
what the code interpolates into the thrown `Error` (logged only). -/
inductive FetchOutcome (α : Type) where
  | success (data : α)
  | failure (diagnostic : String)
  deriving DecidableEq, Repr

/-- Parsed body of the command endpoint: `{response?, audio?, actions?}`. -/
structure CmdResponse where
  response : Option String
  audio : Option String
  actions : Option ActionsField
  deriving DecidableEq, Repr

/-- Parsed body of the upload endpoint: `{response?, audio?, actions?, input?}`. -/
structure UploadResponse where
  response : Option String
  audio : Option String
  actions : Option ActionsField
  input : Option String
  deriving DecidableEq, Repr

/-- `handleSendCommand` (lines 293-321): trims the command and returns
unchanged when empty; otherwise appends the user exchange, clears
response/audio, performs the round trip, and on success sets the response
(with localized fallback), audio, normalized actions, and appends the
assistant exchange; on failure sets the fallback response and appends the
generic error exchange. `finally` clears the command in both branches. -/
def handleSendCommand (lang : String) (net : FetchOutcome CmdResponse)
    (s : AsstState) : AsstState :=
  let text := jsTrim s.command
  if text = "" then s
  else
    let s1 : AsstState :=
      { s with history := s.history ++ [⟨"user", text⟩],
               response := "", audioUrl := "",
               networkCalls := s.networkCalls + 1 }
    match net with
    | .success data =>
      let resp := jsOrS data.response (t lang "assistantNotAvailable")
      { s1 with response := resp,
                audioUrl := jsOrS data.audio "",
                actions := normalizeActions (data.actions.getD (ActionsField.mapping [])),
                history := s1.history ++ [⟨"assistant", resp⟩],
                command := "" }
    | .failure _ =>
      { s1 with response := t lang "assistantNotAvailable",
                history := s1.history ++ [⟨"error", connectionErrorText⟩],
                command := "" }

/-- `recorder.onstop` (lines 387-431): clears listening, sets the local
object URL (`localUrl`), uploads, and on success overwrites the audio URL
when the body carries one, appends the assistant exchange when
`data.response` is truthy, then the user exchange when `data.input` is
truthy, stores normalized actions when `data.actions` is present, and
marks the upload done; on failure marks it errored, sets the localized
upload-error response and appends the generic error exchange. -/
def recorderOnstop (lang localUrl : String) (net : FetchOutcome UploadResponse)
    (s : AsstState) : AsstState :=
  let s0 : AsstState :=
    { s with listening := false, audioUrl := localUrl,
             uploadStatus := "uploading", networkCalls := s.networkCalls + 1 }
  match net with
  | .success data =>
    let s1 := if truthyS data.audio then { s0 with audioUrl := data.audio.getD "" } else s0
    let s2 :=
      if truthyS data.response then
        { s1 with response := data.response.getD "",
                  history := s1.history ++ [⟨"assistant", data.response.getD ""⟩] }
      else s1
    let s3 :=
      if truthyS data.input then
        { s2 with history := s2.history ++ [⟨"user", data.input.getD ""⟩] }
      else s2
    let s4 :=
      match data.actions with
      | some a => { s3 with actions := normalizeActions a }
      | none => s3
    { s4 with uploadStatus := "done" }
  | .failure _ =>
    { s0 with uploadStatus := "error", response := t lang "uploadError",
              history := s0.history ++ [⟨"error", connectionErrorText⟩] }

/-- Environment outcomes `startRecording` can meet: missing
`navigator.mediaDevices.getUserMedia`, missing `MediaRecorder`, a
`getUserMedia` rejection, both `MediaRecorder` constructors failing, or a
successfully started recorder. -/
inductive RecEnv where
  | noMediaDevices
  | noMediaRecorder
  | gumDenied
  | recorderInitFailed
  | available
  deriving DecidableEq, Repr

/-- `startRecording` (lines 337-447): unconditionally resets the chunk
buffer, the upload status and the response before any capability check or
any check of an existing session, then either reports a localized
capability/permission error or installs a fresh recorder and starts it
(`onstart` sets listening). -/
def startRecording (lang : String) (env : RecEnv) (s : AsstState) : AsstState :=
  let s0 : AsstState := { s with chunks := [], uploadStatus := "idle", response := "" }
  match env with
  | .noMediaDevices => { s0 with response := t lang "micNotSupported" }
  | .noMediaRecorder => { s0 with response := t lang "recordingNotSupported" }
  | .gumDenied => { s0 with response := t lang "micAccessError" }
  | .recorderInitFailed => { s0 with response := t lang "recordingNotSupported" }
  | .available => { s0 with recorder := some "recording", listening := true }

/-- The fixed auto-stop ceiling passed to `setTimeout` (line 442). -/
def autoStopDelayMs : Nat := 5000

/-- The guard of the auto-stop timer callback (line 435): `stop()` is
called iff the recorder ref is non-null and its state is not `"inactive"`. -/
def autoStopFires : Option String → Bool
  | some st => st ≠ "inactive"
  | none => false

/-- Effect of the timer callback on the recorder state: when the guard
holds, `MediaRecorder.stop()` moves the recorder to `"inactive"`;
otherwise nothing changes. -/
def autoStopTimer : Option String → Option String
  | some st => if st ≠ "inactive" then some "inactive" else some st
  | none => none

/-! ### Feedback submission -/

/-- The feedback-form state the claims concern, plus a network-call counter. -/
structure FeedbackState where
  message : String
  rating : Int
  status : String
  networkCalls : Nat
  deriving DecidableEq, Repr

/-- Parsed body of the feedback endpoint: `{status?}`. -/
structure FeedbackResponse where
  status : Option String
  deriving DecidableEq, Repr

/-- `handleSendFeedback` (lines 449-477): a whitespace-only message is
rejected locally with the localized validation status and nothing else
changes; otherwise the round trip runs, success sets the returned (or
localized fallback) status and clears message and rating, failure sets
the localized failure status and leaves message and rating intact. -/
def handleSendFeedback (lang : String) (net : FetchOutcome FeedbackResponse)
    (s : FeedbackState) : FeedbackState :=
  if jsTrim s.message = "" then { s with status := t lang "feedbackEmpty" }
  else
    match net with
    | .success data =>
      { message := "", rating := 0,
        status := jsOrS data.status (t lang "feedbackSent"),
        networkCalls := s.networkCalls + 1 }
    | .failure _ =>
      { s with status := t lang "feedbackError", networkCalls := s.networkCalls + 1 }

/-! ### Persistence of the conversation log

`JSON.stringify(history)` / `JSON.parse(saved)` are modelled at the JSON
value level: `encodeHistory` is the JSON value the array of
`{role, text}` records serializes to, and decoding reads it back the way
the component consumes it (`msg.role`, `msg.text`). -/

/-- A JSON value (the fragment this program stores). -/
inductive Json where
  | jstr (s : String)
  | jarr (elems : List Json)
  | jobj (fields : List (String × Json))

/-- The JSON value one `{role, text}` record serializes to. -/
def encodeExchange (e : Exchange) : Json :=
  .jobj [("role", .jstr e.role), ("text", .jstr e.text)]

/-- The JSON value the history array serializes to under the
`"voiceAssistantHistory"` storage key. -/
def encodeHistory (h : List Exchange) : Json :=
  .jarr (h.map encodeExchange)

/-- Reading one stored record back as an Exchange. -/
def decodeExchange : Json → Option Exchange
  | .jobj [("role", .jstr r), ("text", .jstr txt)] => some ⟨r, txt⟩
  | _ => none

/-- Reading a stored array back elementwise. -/
def decodeElems : List Json → Option (List Exchange)
  | [] => some []
  | j :: rest =>
    match decodeExchange j, decodeElems rest with
    | some e, some es => some (e :: es)
    | _, _ => none

/-- The `useState` initializer `saved ? JSON.parse(saved) : []`:
no stored value yields the empty log, a stored value is decoded. -/
def loadHistory : Option Json → Option (List Exchange)
  | none => some []
  | some (.jarr l) => decodeElems l
  | some _ => none

/-! ### Helper lemmas -/

/-- A convenient all-empty component state for concrete instantiations. -/
def emptyAsstState : AsstState :=
  { command := "", response := "", audioUrl := "", actions := [], history := [],
    uploadStatus := "", listening := false, chunks := [], recorder := none,
    networkCalls := 0 }

/-- A component state with a capture session in progress: a recording
recorder, listening, and one buffered chunk. -/
def activeCaptureState : AsstState :=
  { emptyAsstState with chunks := ["c0"], recorder := some "recording",
                        listening := true }

theorem jsOrS_of_truthy (a : Option String) (b : String) (h : truthyS a = true) :
    jsOrS a b = a.getD "" := by
  cases a with
  | none => simp [truthyS] at h
  | some s =>
    simp only [truthyS, decide_eq_true_eq] at h
    simp [jsOrS, h]

theorem jsOrS_ne_empty (a : Option String) (b : String) (hb : b ≠ "") :
    jsOrS a b ≠ "" := by
  cases a with
  | none => simpa [jsOrS] using hb
  | some s =>
    by_cases hs : s = "" <;> simp [jsOrS, hs, hb]

theorem actionPlaceholder_ne_empty (i : Nat) : actionPlaceholder i ≠ "" := by
  intro h
  have hlen := congrArg String.length h
  rw [actionPlaceholder, String.length_append] at hlen
  have h7 : ("Action " : String).length = 7 := by decide
  have h0 : ("" : String).length = 0 := by decide
  rw [h7, h0] at hlen
  omega

theorem resolveFrom_map_pairs (m : List (String × String)) :
    ∀ i : Nat, resolveFrom i (m.map fun p => JsItem.arr [p.1, p.2]) = m := by
  induction m with
  | nil => intro i; rfl
  | cons p rest ih =>
    intro i
    simp only [List.map_cons, resolveFrom, resolveItem, List.length_cons,
      List.length_singleton]
    rw [if_pos (by omega)]
    simp [List.getD, ih]

theorem decode_encode_exchange (e : Exchange) :
    decodeExchange (encodeExchange e) = some e := rfl

theorem decodeElems_encode (l : List Exchange) :
    decodeElems (l.map encodeExchange) = some l := by
  induction l with
  | nil => rfl
  | cons e rest ih => simp [decodeElems, decode_encode_exchange, ih]

/-! ### The claims -/

/-- C10: submitting a command that is empty or whitespace-only after
trimming is a complete no-op: the state (log, response, audio, actions,
command field) is returned unchanged and no network call is made. -/
theorem c10_blank_command_is_noop (lang : String) (net : FetchOutcome CmdResponse)
    (s : AsstState) (h : jsTrim s.command = "") :
    handleSendCommand lang net s = s := by
  simp [handleSendCommand, h]

/-- C10 instantiated: a three-space command with a failing network leaves
the state untouched. -/
theorem c10_blank_command_is_noop_witness :
    (jsTrim "   " = "") ∧
    handleSendCommand "pt" (FetchOutcome.failure "HTTP 500 - x")
        { emptyAsstState with command := "   " } =
      { emptyAsstState with command := "   " } :=
  ⟨by decide,
   c10_blank_command_is_noop "pt" (FetchOutcome.failure "HTTP 500 - x")
     { emptyAsstState with command := "   " } (by decide)⟩

/-- C6: feedback submission with a whitespace-only message performs zero
network calls, sets the localized validation message as the status, and
leaves the message and rating fields unchanged. -/
theorem c6_blank_feedback_rejected_locally (lang : String)
    (net : FetchOutcome FeedbackResponse) (s : FeedbackState)
    (h : jsTrim s.message = "") :
    handleSendFeedback lang net s = { s with status := t lang "feedbackEmpty" } ∧
    (handleSendFeedback lang net s).networkCalls = s.networkCalls ∧
    (handleSendFeedback lang net s).message = s.message ∧
    (handleSendFeedback lang net s).rating = s.rating := by
  simp [handleSendFeedback, h]

/-- C6 instantiated at the message `"  "` of the spec's example. -/
theorem c6_blank_feedback_rejected_locally_witness :
    (jsTrim "  " = "") ∧
    handleSendFeedback "en" (FetchOutcome.success ⟨some "ok"⟩)
        { message := "  ", rating := 3, status := "", networkCalls := 0 } =
      { message := "  ", rating := 3, status := t "en" "feedbackEmpty",
        networkCalls := 0 } :=
  ⟨by decide,
   (c6_blank_feedback_rejected_locally "en" (FetchOutcome.success ⟨some "ok"⟩)
     { message := "  ", rating := 3, status := "", networkCalls := 0 }
     (by decide)).1⟩

/-- C9: after a non-blank feedback submission, success clears the message
and rating fields, while any failure sets the localized generic failure
status and leaves message and rating unchanged for retry. -/
theorem c9_feedback_success_clears_failure_preserves (lang : String)
    (s : FeedbackState) (h : jsTrim s.message ≠ "") :
    (∀ data : FeedbackResponse,
      (handleSendFeedback lang (FetchOutcome.success data) s).message = "" ∧
      (handleSendFeedback lang (FetchOutcome.success data) s).rating = 0) ∧
    (∀ diag : String,
      (handleSendFeedback lang (FetchOutcome.failure diag) s).status =
          t lang "feedbackError" ∧
      (handleSendFeedback lang (FetchOutcome.failure diag) s).message = s.message ∧
      (handleSendFeedback lang (FetchOutcome.failure diag) s).rating = s.rating) := by
  constructor
  · intro data
    simp [handleSendFeedback, h]
  · intro diag
    simp [handleSendFeedback, h]

/-- C9 instantiated: message `"great"`, both a success and a failure outcome. -/
theorem c9_feedback_success_clears_failure_preserves_witness :
    (jsTrim "great" ≠ "") ∧
    (handleSendFeedback "pt" (FetchOutcome.success ⟨none⟩)
        { message := "great", rating := 5, status := "", networkCalls := 0 }).message = "" ∧
    (handleSendFeedback "pt" (FetchOutcome.failure "network down")
        { message := "great", rating := 5, status := "", networkCalls := 0 }).message = "great" := by
  have h := c9_feedback_success_clears_failure_preserves "pt"
    { message := "great", rating := 5, status := "", networkCalls := 0 } (by decide)
  exact ⟨by decide, (h.1 ⟨none⟩).1, (h.2 "network down").2.1⟩

/-- C7: persisting the conversation log and reloading it reproduces the
identical ordered sequence of exchanges (serialize-then-deserialize is the
identity on every log). -/
theorem c7_history_persist_reload_identity (h : List Exchange) :
    loadHistory (some (encodeHistory h)) = some h := by
  simp [loadHistory, encodeHistory, decodeElems_encode]

/-- C8: the auto-stop ceiling is the fixed 5000 ms, the timer callback
stops the recorder iff its state is not already `"inactive"`, and after
the callback no recorder remains in the `"recording"` state. -/
theorem c8_auto_stop_within_ceiling :
    autoStopDelayMs = 5000 ∧
    (∀ st : String, autoStopFires (some st) = true ↔ st ≠ "inactive") ∧
    (∀ r : Option String, autoStopTimer r ≠ some "recording") := by
  refine ⟨rfl, ?_, ?_⟩
  · intro st
    simp [autoStopFires]
  · intro r
    match r with
    | none => simp [autoStopTimer]
    | some st =>
      by_cases hst : st = "inactive" <;> simp [autoStopTimer, hst]

/-- C8 instantiated: a recorder still `"recording"` when the timer fires
is stopped, and the result is not `"recording"`. -/
theorem c8_auto_stop_within_ceiling_witness :
    autoStopFires (some "recording") = true ∧
    autoStopTimer (some "recording") ≠ some "recording" :=
  ⟨(c8_auto_stop_within_ceiling.2.1 "recording").mpr (by decide),
   c8_auto_stop_within_ceiling.2.2 (some "recording")⟩

/-- C1 as stated is false: an audio upload whose body is
`{response: "R", input: "hello"}` appends the assistant exchange first and
the user exchange second, not user-then-assistant. -/
theorem c1_counterexample :
    (recorderOnstop "pt" "blob:local"
        (FetchOutcome.success ⟨some "R", none, none, some "hello"⟩)
        emptyAsstState).history =
      [⟨"assistant", "R"⟩, ⟨"user", "hello"⟩] ∧
    ([⟨"assistant", "R"⟩, ⟨"user", "hello"⟩] : List Exchange) ≠
      [⟨"user", "hello"⟩, ⟨"assistant", "R"⟩] := by
  decide

/-- C1 amended: a successful text submission appends user then assistant;
a successful audio upload appends the assistant reply first and the
transcribed user utterance second, each only when the corresponding body
field (`response`, `input`) is a non-empty string. -/
theorem c1_amended_append_order (lang : String) (s : AsstState) :
    (∀ data : CmdResponse, jsTrim s.command ≠ "" → truthyS data.response = true →
      (handleSendCommand lang (FetchOutcome.success data) s).history =
        s.history ++ [⟨"user", jsTrim s.command⟩,
                      ⟨"assistant", data.response.getD ""⟩]) ∧
    (∀ (localUrl : String) (data : UploadResponse),
      (recorderOnstop lang localUrl (FetchOutcome.success data) s).history =
        (s.history ++
          (if truthyS data.response then [⟨"assistant", data.response.getD ""⟩] else [])) ++
          (if truthyS data.input then [⟨"user", data.input.getD ""⟩] else [])) := by
  constructor
  · intro data h htr
    simp [handleSendCommand, h, jsOrS_of_truthy _ _ htr]
  · intro localUrl data
    cases ha : truthyS data.audio <;> cases hr : truthyS data.response <;>
      cases hi : truthyS data.input <;>
      rcases hact : data.actions with _ | a <;>
      simp [recorderOnstop, ha, hr, hi, hact]

/-- C1 amended, instantiated: text command `"hi"` with body response `"R"`. -/
theorem c1_amended_append_order_witness :
    (jsTrim "hi" ≠ "") ∧ truthyS (some "R") = true ∧
    (handleSendCommand "pt" (FetchOutcome.success ⟨some "R", none, none⟩)
        { emptyAsstState with command := "hi" }).history =
      [⟨"user", "hi"⟩, ⟨"assistant", "R"⟩] := by
  refine ⟨by decide, by decide, ?_⟩
  rw [(c1_amended_append_order "pt" { emptyAsstState with command := "hi" }).1
    ⟨some "R", none, none⟩ (by decide) (by decide)]
  decide

/-- C2 as stated is false: a failing text submission makes the log gain
two exchanges (the pre-flight user exchange, then the error exchange),
not exactly one. -/
theorem c2_counterexample :
    (handleSendCommand "pt" (FetchOutcome.failure "HTTP 500 - detail")
        { emptyAsstState with command := "hi" }).history =
      [⟨"user", "hi"⟩, ⟨"error", connectionErrorText⟩] ∧
    (handleSendCommand "pt" (FetchOutcome.failure "HTTP 500 - detail")
        { emptyAsstState with command := "hi" }).history.length ≠
      emptyAsstState.history.length + 1 := by
  decide

/-- C2 amended: on failure a text submission appends the user exchange
(already emitted before the call) followed by exactly one error exchange,
and a failed audio upload appends exactly one error exchange; in both
cases no assistant exchange is appended and the error text is the fixed
generic connectivity message, independent of the transport diagnostic. -/
theorem c2_amended_failure_exchanges (lang : String) (s : AsstState) :
    (∀ diag : String, jsTrim s.command ≠ "" →
      (handleSendCommand lang (FetchOutcome.failure diag) s).history =
        s.history ++ [⟨"user", jsTrim s.command⟩, ⟨"error", connectionErrorText⟩]) ∧
    (∀ (localUrl diag : String),
      (recorderOnstop lang localUrl (FetchOutcome.failure diag) s).history =
        s.history ++ [⟨"error", connectionErrorText⟩]) := by
  constructor
  · intro diag h
    simp [handleSendCommand, h]
  · intro localUrl diag
    simp [recorderOnstop]

/-- C2 amended, instantiated: failing text and audio submissions. -/
theorem c2_amended_failure_exchanges_witness :
    (jsTrim "hi" ≠ "") ∧
    (handleSendCommand "en" (FetchOutcome.failure "HTTP 503 - x")
        { emptyAsstState with command := "hi" }).history =
      [⟨"user", "hi"⟩, ⟨"error", connectionErrorText⟩] ∧
    (recorderOnstop "en" "blob:local" (FetchOutcome.failure "HTTP 503 - x")
        emptyAsstState).history =
      [⟨"error", connectionErrorText⟩] := by
  have h := c2_amended_failure_exchanges "en" { emptyAsstState with command := "hi" }
  refine ⟨by decide, ?_, ?_⟩
  · rw [h.1 "HTTP 503 - x" (by decide)]
    decide
  · exact (c2_amended_failure_exchanges "en" emptyAsstState).2 "blob:local" "HTTP 503 - x"

/-- C3 as stated is false: starting a capture while one is active
(`"recording"` recorder, one buffered chunk) is not a no-op — the
accumulated chunk buffer of the existing session is cleared. -/
theorem c3_counterexample :
    startRecording "pt" RecEnv.available activeCaptureState ≠ activeCaptureState ∧
    (startRecording "pt" RecEnv.available activeCaptureState).chunks = [] ∧
    activeCaptureState.chunks = ["c0"] := by
  decide

/-- C3 amended: `startRecording` performs no active-session guard: in
every environment outcome it unconditionally resets the chunk buffer to
empty, so invoking it while a session holds buffered chunks mutates (and
discards) that session's state rather than leaving it unchanged. -/
theorem c3_amended_start_clears_buffer (lang : String) (env : RecEnv)
    (s : AsstState) :
    (startRecording lang env s).chunks = [] ∧
    (s.chunks ≠ [] → startRecording lang env s ≠ s) := by
  have hchunks : (startRecording lang env s).chunks = [] := by
    cases env <;> simp [startRecording]
  refine ⟨hchunks, ?_⟩
  intro h hne
  rw [hne] at hchunks
  exact h hchunks

/-- C3 amended, instantiated at the active capture session. -/
theorem c3_amended_start_clears_buffer_witness :
    (activeCaptureState.chunks ≠ []) ∧
    startRecording "en" RecEnv.available activeCaptureState ≠ activeCaptureState :=
  ⟨by decide,
   (c3_amended_start_clears_buffer "en" RecEnv.available activeCaptureState).2
     (by decide)⟩

/-- C5 as stated is false: the mapping with the empty-string key resolves
to an entry whose label is empty, so not every normalized entry resolves
to a non-empty label. -/
theorem c5_counterexample :
    (renderedActions (normalizeActions (ActionsField.mapping [("", "http://x")]))).head? =
      some ("", "http://x") ∧
    decide (∀ p ∈ renderedActions (normalizeActions (ActionsField.mapping [("", "http://x")])),
      p.1 ≠ "") = false := by
  decide

/-- C5 amended: a keyed mapping normalizes to its ordered `[key, value]`
pairs and each such pair resolves verbatim to label `key` and URL `value`
(no non-emptiness guarantee, no `"#"` defaulting), while an object-shaped
list entry resolves to a non-empty label (positional placeholder when no
label-like property is truthy) and a non-empty URL defaulting to `"#"`;
in particular `{"Play": "http://x"}` resolves to `[("Play", "http://x")]`. -/
theorem c5_amended_actions_normalization :
    (∀ m : List (String × String),
      normalizeActions (ActionsField.mapping m) = m.map fun p => JsItem.arr [p.1, p.2]) ∧
    (∀ m : List (String × String),
      renderedActions (normalizeActions (ActionsField.mapping m)) = m) ∧
    (∀ (i : Nat) (label title name url href : Option String),
      ∃ lab u : String,
        resolveItem i (JsItem.obj label title name url href) = some (lab, u) ∧
        lab ≠ "" ∧ u ≠ "") ∧
    renderedActions (normalizeActions (ActionsField.mapping [("Play", "http://x")])) =
      [("Play", "http://x")] := by
  refine ⟨fun m => rfl, ?_, ?_, by decide⟩
  · intro m
    exact resolveFrom_map_pairs m 0
  · intro i label title name url href
    refine ⟨_, _, rfl, ?_, ?_⟩
    · exact jsOrS_ne_empty _ _ (jsOrS_ne_empty _ _
        (jsOrS_ne_empty _ _ (actionPlaceholder_ne_empty i)))
    · exact jsOrS_ne_empty _ _ (jsOrS_ne_empty _ _ (by decide))

/-- C5 amended, instantiated at the spec's example mapping. -/
theorem c5_amended_actions_normalization_witness :
    renderedActions (normalizeActions (ActionsField.mapping [("Play", "http://x")])) =
      [("Play", "http://x")] :=
  c5_amended_actions_normalization.2.1 [("Play", "http://x")]

end VoiceAssistant
